import Mathlib

/-!
Verification of the GuardianCGM drift-monitoring core
(`05_Drift_Monitoring_Strategy.py`).

Shallow embedding conventions:

* Python floats are modelled as exact rationals (`ℚ`).  Where the code can
  produce IEEE NaN (numpy scalar division by zero under the module's
  suppressed warnings), the value is modelled as `Option ℚ` with `none`
  standing for NaN; every `NaN > t` comparison in the code is `False`,
  which `optGt` reproduces.
* Pure-Python integer division by zero raises `ZeroDivisionError`; a
  function that can raise is modelled with `Option`, `none` standing for
  the raised exception.
* The trained predictor (`self.model.predict`), scipy statistics
  (`ks_2samp`, `zscore`) and the square root inside RMSE / subgroup RMSE
  are external collaborators; the checks take their numeric outputs as
  inputs and the embedding models everything the module itself does with
  them (threshold comparisons, alert construction, skipping logic,
  aggregation and the retraining decision).
* `DriftAlert` keeps the fields the monitoring logic reads (severity,
  category, metric, value, threshold); timestamp, message and metadata
  are write-only in the source and are dropped.
-/

namespace DriftMonitoring

/-- Mirror of `MonitoringThresholds` with the source's default values
(floats rendered as exact rationals). -/
structure MonitoringThresholds where
  rmse_warning : ℚ := 7
  rmse_critical : ℚ := 9
  mae_warning : ℚ := 11/2
  mae_critical : ℚ := 7
  clarke_ab_min : ℚ := 95
  ks_test_alpha : ℚ := 1/100
  psi_warning : ℚ := 1/10
  psi_critical : ℚ := 1/4
  subgroup_rmse_disparity_max : ℚ := 2
  missing_rate_max : ℚ := 1/20
  outlier_rate_max : ℚ := 1/50
deriving DecidableEq

/-- The default-constructed threshold configuration. -/
def defaultThresholds : MonitoringThresholds := {}

/-- Mirror of the `DriftAlert` dataclass, restricted to the fields the
monitoring logic reads. -/
structure DriftAlert where
  severity : String
  category : String
  metric : String
  value : ℚ
  threshold : ℚ
deriving DecidableEq

/-- The loop at the top of `_evaluate_retraining_need`: walk the alert
list and return `true` at the first alert that is a CRITICAL `rmse`
alert or a `clarke_ab_percentage` alert whose value is below
`clarke_ab_min`. -/
def immediate_trigger (thr : MonitoringThresholds) : List DriftAlert → Bool
  | [] => false
  | a :: rest =>
    if a.metric = "rmse" ∧ a.severity = "CRITICAL" then true
    else if a.metric = "clarke_ab_percentage" ∧ a.value < thr.clarke_ab_min then true
    else immediate_trigger thr rest

/-- Predicate counted by `critical_count` in `_evaluate_retraining_need`. -/
def isCritical (a : DriftAlert) : Bool := a.severity == "CRITICAL"

/-- Predicate counted by `warning_count` in `_evaluate_retraining_need`. -/
def isWarning (a : DriftAlert) : Bool := a.severity == "WARNING"

/-- Mirror of `_evaluate_retraining_need`: unconditional triggers first,
then `critical_count >= 3`, then `warning_count >= 5`, else `False`. -/
def evaluate_retraining_need (thr : MonitoringThresholds) (alerts : List DriftAlert) : Bool :=
  let critical_count := alerts.countP isCritical
  let warning_count := alerts.countP isWarning
  if immediate_trigger thr alerts then true
  else if 3 ≤ critical_count then true
  else if 5 ≤ warning_count then true
  else false

/-- The per-alert condition tested by the loop in
`_evaluate_retraining_need`, as a boolean predicate. -/
def unconditionalAlert (thr : MonitoringThresholds) (a : DriftAlert) : Bool :=
  decide ((a.metric = "rmse" ∧ a.severity = "CRITICAL") ∨
    (a.metric = "clarke_ab_percentage" ∧ a.value < thr.clarke_ab_min))

theorem immediate_trigger_eq_any (thr : MonitoringThresholds) (l : List DriftAlert) :
    immediate_trigger thr l = l.any (unconditionalAlert thr) := by
  induction l with
  | nil => rfl
  | cons a rest ih =>
    rw [immediate_trigger, List.any_cons, ← ih]
    by_cases h1 : a.metric = "rmse" ∧ a.severity = "CRITICAL"
    · simp [unconditionalAlert, h1]
    · by_cases h2 : a.metric = "clarke_ab_percentage" ∧ a.value < thr.clarke_ab_min
      · simp [unconditionalAlert, h1, h2]
      · simp [unconditionalAlert, h1, h2]

theorem immediate_trigger_iff (thr : MonitoringThresholds) (l : List DriftAlert) :
    immediate_trigger thr l = true ↔
      ∃ a ∈ l, (a.metric = "rmse" ∧ a.severity = "CRITICAL") ∨
        (a.metric = "clarke_ab_percentage" ∧ a.value < thr.clarke_ab_min) := by
  rw [immediate_trigger_eq_any]
  simp [List.any_eq_true, unconditionalAlert]

/-- C1: if the cycle's alert list contains any alert with metric `rmse`
and severity `CRITICAL`, or any alert with metric `clarke_ab_percentage`
whose value is below `clarke_ab_min`, then the retraining verdict is
`true`, regardless of the other alerts. -/
theorem retraining_forced_by_unconditional_alert
    (thr : MonitoringThresholds) (alerts : List DriftAlert)
    (h : ∃ a ∈ alerts, (a.metric = "rmse" ∧ a.severity = "CRITICAL") ∨
      (a.metric = "clarke_ab_percentage" ∧ a.value < thr.clarke_ab_min)) :
    evaluate_retraining_need thr alerts = true := by
  have ht : immediate_trigger thr alerts = true := (immediate_trigger_iff thr alerts).mpr h
  simp [evaluate_retraining_need, ht]

/-- Witness for C1: a single CRITICAL `rmse` alert and nothing else
forces the verdict. -/
theorem retraining_forced_by_unconditional_alert_witness :
    (∃ a ∈ [DriftAlert.mk "CRITICAL" "PERFORMANCE" "rmse" 10 9],
      (a.metric = "rmse" ∧ a.severity = "CRITICAL") ∨
        (a.metric = "clarke_ab_percentage" ∧ a.value < defaultThresholds.clarke_ab_min)) ∧
    evaluate_retraining_need defaultThresholds
      [DriftAlert.mk "CRITICAL" "PERFORMANCE" "rmse" 10 9] = true :=
  ⟨by decide, retraining_forced_by_unconditional_alert defaultThresholds _ (by decide)⟩

/-- C2: when no alert is an unconditional trigger, the verdict is the
volume rule: `true` iff there are at least 3 CRITICAL alerts or at least
5 WARNING alerts. -/
theorem retraining_volume_rule
    (thr : MonitoringThresholds) (alerts : List DriftAlert)
    (h : ∀ a ∈ alerts, ¬((a.metric = "rmse" ∧ a.severity = "CRITICAL") ∨
      (a.metric = "clarke_ab_percentage" ∧ a.value < thr.clarke_ab_min))) :
    evaluate_retraining_need thr alerts =
      (decide (3 ≤ alerts.countP isCritical) || decide (5 ≤ alerts.countP isWarning)) := by
  have ht : immediate_trigger thr alerts = false := by
    rw [Bool.eq_false_iff]
    intro hc
    obtain ⟨a, ha, hcond⟩ := (immediate_trigger_iff thr alerts).mp hc
    exact h a ha hcond
  simp only [evaluate_retraining_need, ht, Bool.false_eq_true, if_false]
  split_ifs with h1 h2 <;> simp_all

/-- Witness for C2: exactly two CRITICAL alerts (neither an unconditional
trigger) and no WARNING alerts yield verdict `false`. -/
theorem retraining_volume_rule_witness :
    (∀ a ∈ [DriftAlert.mk "CRITICAL" "STATISTICAL_DRIFT" "psi_velocity" (3/10) (1/4),
            DriftAlert.mk "CRITICAL" "DATA_QUALITY" "sensor_range_violations" 2 0],
      ¬((a.metric = "rmse" ∧ a.severity = "CRITICAL") ∨
        (a.metric = "clarke_ab_percentage" ∧ a.value < defaultThresholds.clarke_ab_min))) ∧
    evaluate_retraining_need defaultThresholds
      [DriftAlert.mk "CRITICAL" "STATISTICAL_DRIFT" "psi_velocity" (3/10) (1/4),
       DriftAlert.mk "CRITICAL" "DATA_QUALITY" "sensor_range_violations" 2 0] = false :=
  ⟨by decide, by
    rw [retraining_volume_rule defaultThresholds _ (by decide)]
    decide⟩

/-- C8: the retraining verdict is invariant under permutation of the
alert list — it depends only on which alerts exist, not on the order in
which the components appended them. -/
theorem retraining_verdict_perm_invariant
    (thr : MonitoringThresholds) (l l' : List DriftAlert) (h : l.Perm l') :
    evaluate_retraining_need thr l = evaluate_retraining_need thr l' := by
  have hany : l.any (unconditionalAlert thr) = l'.any (unconditionalAlert thr) :=
    Bool.eq_iff_iff.mpr (by simp [List.any_eq_true, h.mem_iff])
  rw [evaluate_retraining_need, evaluate_retraining_need,
    immediate_trigger_eq_any, immediate_trigger_eq_any, hany,
    h.countP_eq isCritical, h.countP_eq isWarning]

/-- Witness for C8: swapping the two alerts of a concrete cycle leaves
the verdict unchanged. -/
theorem retraining_verdict_perm_invariant_witness :
    ([DriftAlert.mk "WARNING" "DATA_QUALITY" "missing_rate" (1/10) (1/20),
      DriftAlert.mk "CRITICAL" "PERFORMANCE" "rmse" 10 9].Perm
     [DriftAlert.mk "CRITICAL" "PERFORMANCE" "rmse" 10 9,
      DriftAlert.mk "WARNING" "DATA_QUALITY" "missing_rate" (1/10) (1/20)]) ∧
    evaluate_retraining_need defaultThresholds
      [DriftAlert.mk "WARNING" "DATA_QUALITY" "missing_rate" (1/10) (1/20),
       DriftAlert.mk "CRITICAL" "PERFORMANCE" "rmse" 10 9] =
    evaluate_retraining_need defaultThresholds
      [DriftAlert.mk "CRITICAL" "PERFORMANCE" "rmse" 10 9,
       DriftAlert.mk "WARNING" "DATA_QUALITY" "missing_rate" (1/10) (1/20)] :=
  ⟨List.Perm.swap _ _ _,
   retraining_verdict_perm_invariant defaultThresholds _ _ (List.Perm.swap _ _ _)⟩

/-- Mirror of `_clarke_zone`: the nested early-return `if` chain,
top-to-bottom, first match wins (`0.2 * true_glucose` is `(1/5) * t`). -/
def clarke_zone (t p : ℚ) : String :=
  if t ≤ 70 ∧ p ≤ 70 then "A"
  else if |p - t| ≤ (1/5) * t then "A"
  else if (t ≤ 70 ∧ p ≥ 180) ∨ (t ≥ 180 ∧ p ≤ 70) then "E"
  else if (t < 70 ∧ p > 180) ∨ (t > 240 ∧ p < 70) then "D"
  else if (70 ≤ t ∧ t ≤ 290) ∧ p ≤ 70 then "C"
  else if (70 ≤ t ∧ t ≤ 180) ∧ p ≥ 240 then "C"
  else "B"

/-- Modelled from the spec: the five clinical-grid rules exactly as §4.3
words them, evaluated top-to-bottom with first match winning, for
comparison with the source's `clarke_zone`. -/
def clarkeZoneSpec (t p : ℚ) : String :=
  if (t ≤ 70 ∧ p ≤ 70) ∨ |p - t| ≤ (1/5) * t then "A"
  else if (t ≤ 70 ∧ p ≥ 180) ∨ (p ≤ 70 ∧ t ≥ 180) then "E"
  else if (t < 70 ∧ p > 180) ∨ (t > 240 ∧ p < 70) then "D"
  else if (70 ≤ t ∧ t ≤ 290 ∧ p ≤ 70) ∨ (70 ≤ t ∧ t ≤ 180 ∧ p ≥ 240) then "C"
  else "B"

set_option maxHeartbeats 1000000 in
theorem clarke_zone_eq_spec (t p : ℚ) : clarke_zone t p = clarkeZoneSpec t p := by
  unfold clarke_zone clarkeZoneSpec
  by_cases h1 : t ≤ 70 ∧ p ≤ 70
  · rw [if_pos h1, if_pos (Or.inl h1)]
  · by_cases h2 : |p - t| ≤ (1/5) * t
    · rw [if_neg h1, if_pos h2, if_pos (Or.inr h2)]
    · rw [if_neg h1, if_neg h2,
        if_neg (show ¬((t ≤ 70 ∧ p ≤ 70) ∨ |p - t| ≤ (1/5) * t) from fun h => h.elim h1 h2)]
      by_cases hE : (t ≤ 70 ∧ p ≥ 180) ∨ (t ≥ 180 ∧ p ≤ 70)
      · rw [if_pos hE, if_pos (show (t ≤ 70 ∧ p ≥ 180) ∨ (p ≤ 70 ∧ t ≥ 180) from
          hE.imp id (fun h => ⟨h.2, h.1⟩))]
      · rw [if_neg hE, if_neg (show ¬((t ≤ 70 ∧ p ≥ 180) ∨ (p ≤ 70 ∧ t ≥ 180)) from
          fun h => hE (h.imp id (fun hx => ⟨hx.2, hx.1⟩)))]
        by_cases hD : (t < 70 ∧ p > 180) ∨ (t > 240 ∧ p < 70)
        · rw [if_pos hD, if_pos hD]
        · rw [if_neg hD, if_neg hD]
          by_cases hC1 : (70 ≤ t ∧ t ≤ 290) ∧ p ≤ 70
          · rw [if_pos hC1,
              if_pos (show (70 ≤ t ∧ t ≤ 290 ∧ p ≤ 70) ∨ (70 ≤ t ∧ t ≤ 180 ∧ p ≥ 240) from
                Or.inl ⟨hC1.1.1, hC1.1.2, hC1.2⟩)]
          · by_cases hC2 : (70 ≤ t ∧ t ≤ 180) ∧ p ≥ 240
            · rw [if_neg hC1, if_pos hC2,
                if_pos (show (70 ≤ t ∧ t ≤ 290 ∧ p ≤ 70) ∨ (70 ≤ t ∧ t ≤ 180 ∧ p ≥ 240) from
                  Or.inr ⟨hC2.1.1, hC2.1.2, hC2.2⟩)]
            · rw [if_neg hC1, if_neg hC2,
                if_neg (show ¬((70 ≤ t ∧ t ≤ 290 ∧ p ≤ 70) ∨ (70 ≤ t ∧ t ≤ 180 ∧ p ≥ 240)) from
                  fun h => h.elim (fun hx => hC1 ⟨⟨hx.1, hx.2.1⟩, hx.2.2⟩)
                    (fun hx => hC2 ⟨⟨hx.1, hx.2.1⟩, hx.2.2⟩))]

theorem clarke_zone_total (t p : ℚ) :
    clarke_zone t p ∈ (["A", "B", "C", "D", "E"] : List String) := by
  unfold clarke_zone
  split_ifs <;> simp

theorem clarke_zone_240_65_eval : clarke_zone 240 65 = "E" := by
  unfold clarke_zone
  norm_num

/-- Counterexample to C3: the boundary pair (true = 240, predicted = 65)
is classified Zone E by the source (`240 ≥ 180 ∧ 65 ≤ 70` fires in the
Zone E rule), not Zone C as the claim states. -/
theorem clarke_zone_240_65_is_E_not_C :
    clarke_zone 240 65 = "E" ∧ clarke_zone 240 65 ≠ "C" :=
  ⟨clarke_zone_240_65_eval, by rw [clarke_zone_240_65_eval]; decide⟩

/-- C3 (amended): the classifier assigns exactly one of the five zones,
following the §4.3 rules in their fixed top-to-bottom precedence with
first match winning; the boundary pair (true = 240, predicted = 65) is
classified Zone E (the Zone E rule `true ≥ 180 ∧ predicted ≤ 70` fires
before Zone C; Zone D's `true > 240` condition does not fire). -/
theorem clarke_zone_follows_spec_precedence :
    (∀ t p : ℚ, clarke_zone t p = clarkeZoneSpec t p) ∧
    (∀ t p : ℚ, clarke_zone t p ∈ (["A", "B", "C", "D", "E"] : List String)) ∧
    clarke_zone 240 65 = "E" :=
  ⟨clarke_zone_eq_spec, clarke_zone_total, clarke_zone_240_65_eval⟩

/-- Count of (true, predicted) pairs classified into zone `z`; the value
of `zones[z]` after the loop in `_calculate_clarke_metrics`. -/
def zoneCount (pairs : List (ℚ × ℚ)) (z : String) : ℕ :=
  pairs.countP (fun pr => clarke_zone pr.1 pr.2 == z)

/-- The per-zone percentages returned by `_calculate_clarke_metrics`
(the `zone_counts` entry of the returned dict is `zoneCount` itself). -/
structure ClarkeMetrics where
  zone_a_pct : ℚ
  zone_b_pct : ℚ
  zone_c_pct : ℚ
  zone_d_pct : ℚ
  zone_e_pct : ℚ
deriving DecidableEq

/-- Mirror of `_calculate_clarke_metrics`: each percentage is the zone
count divided by `n_total` times 100.  When `n_total = 0` the Python
integer division `zones['A'] / n_total` raises `ZeroDivisionError`,
modelled as `none`. -/
def calculate_clarke_metrics (pairs : List (ℚ × ℚ)) : Option ClarkeMetrics :=
  if pairs.length = 0 then none
  else some
    { zone_a_pct := (zoneCount pairs "A" : ℚ) / pairs.length * 100
      zone_b_pct := (zoneCount pairs "B" : ℚ) / pairs.length * 100
      zone_c_pct := (zoneCount pairs "C" : ℚ) / pairs.length * 100
      zone_d_pct := (zoneCount pairs "D" : ℚ) / pairs.length * 100
      zone_e_pct := (zoneCount pairs "E" : ℚ) / pairs.length * 100 }

/-- Observer summing the five zone percentages of a clinical-grid
result (0 when the computation raised). -/
def pctSum : Option ClarkeMetrics → ℚ
  | none => 0
  | some cm => cm.zone_a_pct + cm.zone_b_pct + cm.zone_c_pct + cm.zone_d_pct + cm.zone_e_pct

theorem zoneCount_partition (pairs : List (ℚ × ℚ)) :
    zoneCount pairs "A" + zoneCount pairs "B" + zoneCount pairs "C" +
      zoneCount pairs "D" + zoneCount pairs "E" = pairs.length := by
  induction pairs with
  | nil => rfl
  | cons x xs ih =>
    have hx := clarke_zone_total x.1 x.2
    simp only [List.mem_cons, List.not_mem_nil, or_false] at hx
    rcases hx with h | h | h | h | h <;>
      simp only [zoneCount, List.countP_cons, h, List.length_cons] at ih ⊢ <;>
      simp <;> omega

/-- C4: for every non-empty batch of (true, predicted) pairs the
clinical-grid aggregation succeeds, its five zone percentages sum to
exactly 100, and every row is counted in exactly one zone (the five
zone counts partition the row count). -/
theorem clarke_percentages_sum_to_100 (pairs : List (ℚ × ℚ)) (h : pairs ≠ []) :
    (calculate_clarke_metrics pairs).isSome = true ∧
    pctSum (calculate_clarke_metrics pairs) = 100 ∧
    zoneCount pairs "A" + zoneCount pairs "B" + zoneCount pairs "C" +
      zoneCount pairs "D" + zoneCount pairs "E" = pairs.length := by
  have hn : pairs.length ≠ 0 := by simpa using h
  have hq : (pairs.length : ℚ) ≠ 0 := Nat.cast_ne_zero.mpr hn
  have hpart := zoneCount_partition pairs
  have hcast : ((zoneCount pairs "A" : ℚ) + zoneCount pairs "B" + zoneCount pairs "C" +
      zoneCount pairs "D" + zoneCount pairs "E") = (pairs.length : ℚ) := by
    exact_mod_cast hpart
  refine ⟨by simp [calculate_clarke_metrics, hn], ?_, hpart⟩
  simp only [calculate_clarke_metrics, hn, if_false, pctSum]
  field_simp
  linarith [hcast]

/-- Witness for C4: a singleton batch has percentage sum 100. -/
theorem clarke_percentages_sum_to_100_witness :
    (([((100 : ℚ), (100 : ℚ))] : List (ℚ × ℚ)) ≠ []) ∧
    pctSum (calculate_clarke_metrics [((100 : ℚ), (100 : ℚ))]) = 100 :=
  ⟨by decide, (clarke_percentages_sum_to_100 [((100 : ℚ), (100 : ℚ))] (by decide)).2.1⟩

/-- Minimum of a sample (`Series.min`); 0 for the empty list, which the
caller excludes (features with fewer than 30 new observations are
skipped before `_calculate_psi` runs). -/
def listMin (xs : List ℚ) : ℚ := xs.min?.getD 0

/-- Maximum of a sample (`Series.max`). -/
def listMax (xs : List ℚ) : ℚ := xs.max?.getD 0

/-- The `i`-th point of `np.linspace(lo, hi, 11)`. -/
def breakpoint (lo hi : ℚ) (i : ℕ) : ℚ := lo + i * (hi - lo) / 10

/-- Membership of `x` in bin `i` (0-based, 10 bins) of `pd.cut` with the
default right-closed intervals, after the outermost breakpoints are
replaced by `-inf` and `inf`. -/
def inBin (lo hi : ℚ) (i : ℕ) (x : ℚ) : Bool :=
  (decide (i = 0) || decide (breakpoint lo hi i < x)) &&
  (decide (i = 9) || decide (x ≤ breakpoint lo hi (i + 1)))

/-- Proportion of the sample in bin `i`: `value_counts(sort=False)`
divided by the sample length. -/
def binProp (lo hi : ℚ) (xs : List ℚ) (i : ℕ) : ℚ :=
  (xs.countP (inBin lo hi i) : ℚ) / xs.length

/-- The `replace(0, 0.0001)` floor applied to both proportion series. -/
def floorProp (q : ℚ) : ℚ := if q = 0 then 1/10000 else q

/-- Mirror of `_calculate_psi`: bin boundaries come from the reference
sample's min and max, both samples are binned with them, zero
proportions are floored at 0.0001, and
PSI = Σ (cur − ref) · ln(cur / ref).  `Real.log` stands for `np.log`. -/
noncomputable def calculate_psi (reference current : List ℚ) : ℝ :=
  Finset.sum (Finset.range 10) (fun i =>
    (((floorProp (binProp (listMin reference) (listMax reference) current i) : ℚ) : ℝ) -
      ((floorProp (binProp (listMin reference) (listMax reference) reference i) : ℚ) : ℝ)) *
    Real.log
      (((floorProp (binProp (listMin reference) (listMax reference) current i) : ℚ) : ℝ) /
        ((floorProp (binProp (listMin reference) (listMax reference) reference i) : ℚ) : ℝ)))

/-- The hypothesis of the zero case of C6: both samples have identical
per-bin proportions (bins built from the reference sample). -/
def sameBinProps (reference current : List ℚ) : Prop :=
  ∀ i < 10, binProp (listMin reference) (listMax reference) reference i =
    binProp (listMin reference) (listMax reference) current i

theorem floorProp_binProp_pos (lo hi : ℚ) (xs : List ℚ) (i : ℕ) :
    0 < floorProp (binProp lo hi xs i) := by
  unfold floorProp
  split_ifs with h
  · norm_num
  · have hnn : 0 ≤ binProp lo hi xs i := by
      unfold binProp
      positivity
    exact lt_of_le_of_ne hnn (Ne.symm h)

theorem psi_term_nonneg {r c : ℝ} (hr : 0 < r) (hc : 0 < c) :
    0 ≤ (c - r) * Real.log (c / r) := by
  rcases le_total r c with h | h
  · exact mul_nonneg (by linarith) (Real.log_nonneg ((one_le_div hr).mpr h))
  · have h1 : c - r ≤ 0 := by linarith
    have h2 : Real.log (c / r) ≤ 0 :=
      Real.log_nonpos (by positivity) ((div_le_one hr).mpr h)
    have h3 := mul_nonneg (neg_nonneg.mpr h1) (neg_nonneg.mpr h2)
    rwa [neg_mul_neg] at h3

/-- C6: the PSI of the 10-bin procedure (reference min/max boundaries,
outermost bins extended to infinity, zero proportions floored at
0.0001) is non-negative, and equals 0 whenever the reference and new
samples yield identical per-bin proportions. -/
theorem psi_nonneg_and_zero_on_identical (reference current : List ℚ) :
    0 ≤ calculate_psi reference current ∧
    (sameBinProps reference current → calculate_psi reference current = 0) := by
  constructor
  · apply Finset.sum_nonneg
    intro i _
    exact psi_term_nonneg
      (by exact_mod_cast floorProp_binProp_pos (listMin reference) (listMax reference) reference i)
      (by exact_mod_cast floorProp_binProp_pos (listMin reference) (listMax reference) current i)
  · intro h
    apply Finset.sum_eq_zero
    intro i hi
    rw [← h i (Finset.mem_range.mp hi), sub_self, zero_mul]

/-- Witness for C6: a concrete sample compared with itself has
identical bin proportions and PSI exactly 0 (and PSI ≥ 0). -/
theorem psi_nonneg_and_zero_on_identical_witness :
    sameBinProps [(0 : ℚ), 1] [(0 : ℚ), 1] ∧
    calculate_psi [(0 : ℚ), 1] [(0 : ℚ), 1] = 0 ∧
    0 ≤ calculate_psi [(0 : ℚ), 1] [(0 : ℚ), 1] :=
  ⟨fun _ _ => rfl,
   (psi_nonneg_and_zero_on_identical [(0 : ℚ), 1] [(0 : ℚ), 1]).2 (fun _ _ => rfl),
   (psi_nonneg_and_zero_on_identical [(0 : ℚ), 1] [(0 : ℚ), 1]).1⟩

/-- Comparison `x > t` where `x` may be NaN (`none`): IEEE comparisons
with NaN are false, which is what the Python code evaluates when numpy
produced NaN under the module's suppressed warnings. -/
def optGt (x : Option ℚ) (t : ℚ) : Bool :=
  match x with
  | none => false
  | some v => decide (t < v)

/-- Inputs of `_check_data_quality` as computed from the batch: row and
feature-column counts, total null cells over the feature columns, the
z-score outlier rate (scipy `zscore` is external; `none` models the NaN
numpy yields when the z-score array is empty), presence of the
`glucose_raw` column, and the count of rows outside 40-400 mg/dL. -/
structure QualityStats where
  nRows : ℕ
  nFeatures : ℕ
  nullCells : ℕ
  outlierRate : Option ℚ
  hasGlucoseRaw : Bool
  outOfRange : ℕ
deriving DecidableEq

/-- The `missing_rate` of `_check_data_quality`:
`nullCells / (nRows * nFeatures)` is a numpy scalar division, which
yields NaN (`none`) instead of raising when the denominator is 0
(`warnings.filterwarnings('ignore')` suppresses the RuntimeWarning). -/
def missing_rate (q : QualityStats) : Option ℚ :=
  if q.nRows * q.nFeatures = 0 then none
  else some ((q.nullCells : ℚ) / ((q.nRows : ℚ) * (q.nFeatures : ℚ)))

/-- Mirror of `_check_data_quality`: missing-rate alert, outlier-rate
alert, zero-tolerance sensor-range alert, appended in source order. -/
def check_data_quality (thr : MonitoringThresholds) (q : QualityStats) : List DriftAlert :=
  (if optGt (missing_rate q) thr.missing_rate_max then
    [DriftAlert.mk "WARNING" "DATA_QUALITY" "missing_rate"
      ((missing_rate q).getD 0) thr.missing_rate_max] else []) ++
  (if optGt q.outlierRate thr.outlier_rate_max then
    [DriftAlert.mk "WARNING" "DATA_QUALITY" "outlier_rate"
      (q.outlierRate.getD 0) thr.outlier_rate_max] else []) ++
  (if q.hasGlucoseRaw && decide (0 < q.outOfRange) then
    [DriftAlert.mk "CRITICAL" "DATA_QUALITY" "sensor_range_violations"
      (q.outOfRange : ℚ) 0] else [])

/-- Per-feature statistics consumed by `_check_statistical_drift`, one
entry per feature present in both reference and new data (absent
features are skipped by `continue` in the source and carry no entry):
the non-null new-sample size, the externally computed KS statistic and
p-value, and the PSI value (the float result of `_calculate_psi`). -/
structure FeatureDriftStat where
  feature : String
  nNew : ℕ
  ksStat : ℚ
  ksPval : ℚ
  psiVal : ℚ
deriving DecidableEq

/-- Alerts produced for one feature by the loop body of
`_check_statistical_drift`: skip below 30 observations, then the KS
alert (CRITICAL below p = 0.001, else WARNING), then the PSI alert
(CRITICAL above `psi_critical`, else WARNING above `psi_warning`). -/
def feature_drift_alerts (thr : MonitoringThresholds) (s : FeatureDriftStat) : List DriftAlert :=
  if s.nNew < 30 then []
  else
    (if s.ksPval < thr.ks_test_alpha then
      [DriftAlert.mk (if s.ksPval < 1/1000 then "CRITICAL" else "WARNING")
        "STATISTICAL_DRIFT" ("ks_test_" ++ s.feature) s.ksStat thr.ks_test_alpha] else []) ++
    (if s.psiVal > thr.psi_critical then
      [DriftAlert.mk "CRITICAL" "STATISTICAL_DRIFT" ("psi_" ++ s.feature)
        s.psiVal thr.psi_critical]
    else if s.psiVal > thr.psi_warning then
      [DriftAlert.mk "WARNING" "STATISTICAL_DRIFT" ("psi_" ++ s.feature)
        s.psiVal thr.psi_warning]
    else [])

/-- Mirror of `_check_statistical_drift`: the per-feature loop. -/
def check_statistical_drift (thr : MonitoringThresholds)
    (stats : List FeatureDriftStat) : List DriftAlert :=
  stats.flatMap (feature_drift_alerts thr)

/-- Mirror of the RMSE block of `_check_performance`; `rmse` is the
externally computed square root of the mean squared error (`none`
models the NaN of an empty mean).  The critical check runs first and
short-circuits the warning check; both comparisons are strict (`>`)
as in the source. -/
def rmse_alerts (thr : MonitoringThresholds) (rmse : Option ℚ) : List DriftAlert :=
  if optGt rmse thr.rmse_critical then
    [DriftAlert.mk "CRITICAL" "PERFORMANCE" "rmse" (rmse.getD 0) thr.rmse_critical]
  else if optGt rmse thr.rmse_warning then
    [DriftAlert.mk "WARNING" "PERFORMANCE" "rmse" (rmse.getD 0) thr.rmse_warning]
  else []

/-- Mirror of `_check_performance` (alert output): soft-skip with no
alerts when the target column is absent; otherwise the RMSE alert
block followed by the Clarke zone A+B FDA check; `none` when
`_calculate_clarke_metrics` raises on an empty batch.  MAE is computed
but never compared to a threshold in the source, so it yields no
alert. -/
def check_performance (thr : MonitoringThresholds) (hasTarget : Bool)
    (rmse : Option ℚ) (pairs : List (ℚ × ℚ)) : Option (List DriftAlert) :=
  if !hasTarget then some []
  else
    match calculate_clarke_metrics pairs with
    | none => none
    | some cm =>
      some (rmse_alerts thr rmse ++
        (if cm.zone_a_pct + cm.zone_b_pct < thr.clarke_ab_min then
          [DriftAlert.mk "CRITICAL" "PERFORMANCE" "clarke_ab_percentage"
            (cm.zone_a_pct + cm.zone_b_pct) thr.clarke_ab_min] else []))

/-- Mirror of `_check_bias_drift`: no alerts when the target column is
absent; otherwise one WARNING alert per declared demographic column
whose subgroup RMSE disparity (computed externally from the
predictions) exceeds the threshold; a declared column absent from the
batch is skipped with `continue`. -/
def check_bias_drift (thr : MonitoringThresholds) (dataCols : List String)
    (demoCols : List String) (disparity : String → ℚ) : List DriftAlert :=
  if !dataCols.contains "target_30min" then []
  else demoCols.flatMap (fun c =>
    if !dataCols.contains c then []
    else if disparity c > thr.subgroup_rmse_disparity_max then
      [DriftAlert.mk "WARNING" "BIAS_DRIFT" ("subgroup_disparity_" ++ c)
        (disparity c) thr.subgroup_rmse_disparity_max]
    else [])

/-- The gate of step 4 of `check_drift`:
`if demographic_cols and all(col in new_data.columns for col in
demographic_cols)`.  `none` models passing no `demographic_cols`; an
empty list is falsy in Python and also skips. -/
def bias_check_runs (dataCols : List String) (demoCols : Option (List String)) : Bool :=
  match demoCols with
  | none => false
  | some dc => !dc.isEmpty && dc.all (fun c => dataCols.contains c)

/-- Modelled from the spec: the §4.4 contract sentence, under which the
bias check runs whenever ground truth and at least one declared
demographic grouping column are present in the batch. -/
def biasCheckRunsSpec (dataCols : List String) (demoCols : Option (List String)) : Bool :=
  dataCols.contains "target_30min" &&
    (match demoCols with
     | none => false
     | some dc => dc.any (fun c => dataCols.contains c))

/-- The inputs of one `check_drift` cycle, abstracted from the batch
and the external predictor as described on the component structures. -/
structure CycleInput where
  dataCols : List String
  quality : QualityStats
  driftStats : List FeatureDriftStat
  rmse : Option ℚ
  pairs : List (ℚ × ℚ)
  demoCols : Option (List String)
  disparity : String → ℚ

/-- The report fields the claims are about. -/
structure CycleReport where
  alerts : List DriftAlert
  retraining_required : Bool
deriving DecidableEq

/-- Mirror of `check_drift`: data-quality, statistical-drift,
performance and (gated) bias alerts concatenated in source order, then
the retraining verdict; `none` when the performance step raises (zero
rows with the target column present). -/
def check_drift (thr : MonitoringThresholds) (inp : CycleInput) : Option CycleReport :=
  let qa := check_data_quality thr inp.quality
  let da := check_statistical_drift thr inp.driftStats
  match check_performance thr (inp.dataCols.contains "target_30min") inp.rmse inp.pairs with
  | none => none
  | some pa =>
    let ba := if bias_check_runs inp.dataCols inp.demoCols then
        check_bias_drift thr inp.dataCols (inp.demoCols.getD []) inp.disparity
      else []
    let alerts := qa ++ da ++ pa ++ ba
    some (CycleReport.mk alerts (evaluate_retraining_need thr alerts))

theorem rmse_alerts_some (thr : MonitoringThresholds) (r : ℚ) :
    rmse_alerts thr (some r) =
      if thr.rmse_critical < r then
        [DriftAlert.mk "CRITICAL" "PERFORMANCE" "rmse" r thr.rmse_critical]
      else if thr.rmse_warning < r then
        [DriftAlert.mk "WARNING" "PERFORMANCE" "rmse" r thr.rmse_warning]
      else [] := by
  simp [rmse_alerts, optGt]

/-- Counterexample to C5: at the exact boundary RMSE = `rmse_critical`
(default 9), the source's strict `>` comparison emits a WARNING alert
(since 9 > `rmse_warning` = 7), not the CRITICAL alert the claim's `≥`
requires. -/
theorem rmse_boundary_gives_warning_not_critical :
    defaultThresholds.rmse_critical ≤ 9 ∧
    rmse_alerts defaultThresholds (some 9) =
      [DriftAlert.mk "WARNING" "PERFORMANCE" "rmse" 9 defaultThresholds.rmse_warning] := by
  refine ⟨le_refl 9, ?_⟩
  rw [rmse_alerts_some]
  norm_num [defaultThresholds]

/-- Predicate: alert about the `rmse` metric. -/
def isRmseMetric (a : DriftAlert) : Bool := a.metric == "rmse"

/-- C5 (amended): with the target column present and a non-empty batch,
the performance monitor emits exactly one RMSE alert when
RMSE > `rmse_critical` (severity CRITICAL); else exactly one when
RMSE > `rmse_warning` (severity WARNING); else none.  The comparisons
are strict, the critical check runs first and short-circuits the
warning check, so at most one RMSE alert is produced per cycle; at the
exact boundary RMSE = `rmse_critical` the alert is WARNING (when
`rmse_warning` < `rmse_critical`), and at RMSE = `rmse_warning` there
is no RMSE alert. -/
theorem rmse_alert_emission (thr : MonitoringThresholds) (r : ℚ)
    (pairs : List (ℚ × ℚ)) (h : pairs ≠ []) :
    (check_performance thr true (some r) pairs).isSome = true ∧
    ((check_performance thr true (some r) pairs).getD []).countP isRmseMetric ≤ 1 ∧
    ((check_performance thr true (some r) pairs).getD []).countP
        (fun a => isRmseMetric a && isCritical a) =
      (if thr.rmse_critical < r then 1 else 0) ∧
    ((check_performance thr true (some r) pairs).getD []).countP
        (fun a => isRmseMetric a && isWarning a) =
      (if thr.rmse_warning < r ∧ r ≤ thr.rmse_critical then 1 else 0) := by
  have hn : pairs.length ≠ 0 := by simpa using h
  obtain ⟨cm, hcm⟩ : ∃ cm, calculate_clarke_metrics pairs = some cm := by
    simp [calculate_clarke_metrics, hn]
  simp only [check_performance, Bool.not_true, Bool.false_eq_true, if_false, hcm,
    Option.isSome_some, Option.getD_some, rmse_alerts_some, true_and]
  by_cases h1 : thr.rmse_critical < r
  · have h3 : ¬(thr.rmse_warning < r ∧ r ≤ thr.rmse_critical) := fun hx => absurd h1 (not_lt.mpr hx.2)
    by_cases h2 : cm.zone_a_pct + cm.zone_b_pct < thr.clarke_ab_min <;>
      simp [h1, h2, h3, List.countP_append, List.countP_cons, isRmseMetric, isCritical, isWarning]
  · by_cases h2 : thr.rmse_warning < r
    · have h3 : thr.rmse_warning < r ∧ r ≤ thr.rmse_critical := ⟨h2, not_lt.mp h1⟩
      by_cases h4 : cm.zone_a_pct + cm.zone_b_pct < thr.clarke_ab_min <;>
        simp [h1, h2, h3, h4, List.countP_append, List.countP_cons,
          isRmseMetric, isCritical, isWarning]
    · have h3 : ¬(thr.rmse_warning < r ∧ r ≤ thr.rmse_critical) := fun hx => h2 hx.1
      by_cases h4 : cm.zone_a_pct + cm.zone_b_pct < thr.clarke_ab_min <;>
        simp [h1, h2, h3, h4, List.countP_append, List.countP_cons,
          isRmseMetric, isCritical, isWarning]

/-- Witness for C5 (amended): RMSE = 8 with default thresholds is in the
warning band and yields exactly one WARNING rmse alert. -/
theorem rmse_alert_emission_witness :
    (([((100 : ℚ), (100 : ℚ))] : List (ℚ × ℚ)) ≠ []) ∧
    ((check_performance defaultThresholds true (some 8) [((100 : ℚ), (100 : ℚ))]).getD
        []).countP (fun a => isRmseMetric a && isWarning a) = 1 := by
  refine ⟨by decide, ?_⟩
  rw [(rmse_alert_emission defaultThresholds 8 [((100 : ℚ), (100 : ℚ))] (by decide)).2.2.2]
  norm_num [defaultThresholds]

/-- Counterexample to C7: a batch containing ground truth and one of
two declared demographic columns satisfies the claim's run condition
(at least one declared column present), yet the source's `all(...)`
gate skips the bias check entirely. -/
theorem bias_gate_requires_all_columns :
    bias_check_runs ["target_30min", "age_group"] (some ["age_group", "bmi_category"]) = false ∧
    biasCheckRunsSpec ["target_30min", "age_group"] (some ["age_group", "bmi_category"]) = true :=
  ⟨rfl, rfl⟩

/-- C7 (amended): for every monitoring cycle, the bias check runs iff
the declared demographic column list is non-empty and every declared
column is present in the batch (the gate does not look at ground
truth) — a partially present declaration skips the check entirely, so
the per-column skip inside `_check_bias_drift` is unreachable through
`check_drift`; and when the check runs on a batch without the
ground-truth column it emits no alerts and no error, so bias alerts
appear only when ground truth and all declared columns are present. -/
theorem bias_gate_characterization (thr : MonitoringThresholds)
    (dataCols dc : List String) (disparity : String → ℚ) :
    (bias_check_runs dataCols (some dc) = true ↔
      dc ≠ [] ∧ ∀ c ∈ dc, dataCols.contains c = true) ∧
    (dataCols.contains "target_30min" = false →
      check_bias_drift thr dataCols dc disparity = []) := by
  constructor
  · simp [bias_check_runs, List.all_eq_true, List.isEmpty_iff]
  · intro htarget
    unfold check_bias_drift
    rw [htarget]
    simp

/-- Witness for C7 (amended): with ground truth and the single declared
demographic column present the gate runs (the central positive case);
and a batch without the target column gets no bias alerts even when
the declared demographic column is present. -/
theorem bias_gate_characterization_witness :
    bias_check_runs ["target_30min", "age_group"] (some ["age_group"]) = true ∧
    ((["age_group"] : List String).contains "target_30min" = false) ∧
    check_bias_drift defaultThresholds ["age_group"] ["age_group"] (fun _ => 0) = [] :=
  ⟨(bias_gate_characterization defaultThresholds ["target_30min", "age_group"] ["age_group"]
      (fun _ => 0)).1.mpr ⟨by decide, by decide⟩,
   rfl,
   (bias_gate_characterization defaultThresholds ["age_group"] ["age_group"]
      (fun _ => 0)).2 rfl⟩

/-- Predicate: severity is one of the two values actually assigned. -/
def severityOk (a : DriftAlert) : Bool :=
  a.severity == "WARNING" || a.severity == "CRITICAL"

/-- Substring test mirroring Python's `'RETRAINING' in a.severity`
(line 787 of the source). -/
def strContains (hay needle : String) : Bool :=
  hay.toList.tails.any (fun t => needle.toList.isPrefixOf t)

theorem mem_ite_singleton {α : Type} {c : Prop} [Decidable c] {a x : α}
    (h : a ∈ (if c then [x] else ([] : List α))) : a = x := by
  split at h
  · simpa using h
  · simp at h

theorem check_data_quality_severityOk (thr : MonitoringThresholds) (q : QualityStats) :
    ∀ a ∈ check_data_quality thr q, severityOk a = true := by
  intro a ha
  unfold check_data_quality at ha
  simp only [List.mem_append] at ha
  rcases ha with (ha | ha) | ha <;> rw [mem_ite_singleton ha] <;> rfl

theorem feature_drift_alerts_severityOk (thr : MonitoringThresholds) (s : FeatureDriftStat) :
    ∀ a ∈ feature_drift_alerts thr s, severityOk a = true := by
  intro a ha
  unfold feature_drift_alerts at ha
  split at ha
  · simp at ha
  · simp only [List.mem_append] at ha
    rcases ha with ha | ha
    · rw [mem_ite_singleton ha]
      unfold severityOk
      split <;> rfl
    · split at ha
      · simp only [List.mem_singleton] at ha
        subst ha; rfl
      · split at ha
        · simp only [List.mem_singleton] at ha
          subst ha; rfl
        · simp at ha

theorem check_statistical_drift_severityOk (thr : MonitoringThresholds)
    (stats : List FeatureDriftStat) :
    ∀ a ∈ check_statistical_drift thr stats, severityOk a = true := by
  intro a ha
  unfold check_statistical_drift at ha
  simp only [List.mem_flatMap] at ha
  obtain ⟨s, _, hs⟩ := ha
  exact feature_drift_alerts_severityOk thr s a hs

theorem rmse_alerts_severityOk (thr : MonitoringThresholds) (r : Option ℚ) :
    ∀ a ∈ rmse_alerts thr r, severityOk a = true := by
  intro a ha
  unfold rmse_alerts at ha
  split at ha
  · simp only [List.mem_singleton] at ha
    subst ha; rfl
  · split at ha
    · simp only [List.mem_singleton] at ha
      subst ha; rfl
    · simp at ha

theorem check_performance_severityOk (thr : MonitoringThresholds) (ht : Bool)
    (r : Option ℚ) (pairs : List (ℚ × ℚ)) (al : List DriftAlert)
    (h : check_performance thr ht r pairs = some al) :
    ∀ a ∈ al, severityOk a = true := by
  intro a ha
  unfold check_performance at h
  split at h
  · cases h
    simp at ha
  · split at h
    · cases h
    · cases h
      simp only [List.mem_append] at ha
      rcases ha with ha | ha
      · exact rmse_alerts_severityOk thr r a ha
      · rw [mem_ite_singleton ha]
        rfl

theorem check_bias_drift_severityOk (thr : MonitoringThresholds)
    (dataCols demoCols : List String) (disparity : String → ℚ) :
    ∀ a ∈ check_bias_drift thr dataCols demoCols disparity, severityOk a = true := by
  intro a ha
  unfold check_bias_drift at ha
  split at ha
  · simp at ha
  · simp only [List.mem_flatMap] at ha
    obtain ⟨c, _, hc⟩ := ha
    split at hc
    · simp at hc
    · split at hc
      · simp only [List.mem_singleton] at hc
        subst hc; rfl
      · simp at hc

theorem severityOk_no_retraining {a : DriftAlert} (h : severityOk a = true) :
    strContains a.severity "RETRAINING" = false := by
  simp only [severityOk, Bool.or_eq_true, beq_iff_eq] at h
  rcases h with h1 | h1 <;> rw [h1] <;> rfl

/-- C9: every alert of any monitoring cycle has severity exactly
WARNING or CRITICAL; the declared severities INFO and
RETRAINING_REQUIRED are never assigned, so the PMCF report's count of
alerts whose severity contains the substring RETRAINING is zero. -/
theorem cycle_severities_warning_or_critical
    (thr : MonitoringThresholds) (inp : CycleInput) (r : CycleReport)
    (h : check_drift thr inp = some r) :
    r.alerts.all severityOk = true ∧
    r.alerts.countP (fun a => strContains a.severity "RETRAINING") = 0 := by
  have hall : ∀ a ∈ r.alerts, severityOk a = true := by
    intro a ha
    simp only [check_drift] at h
    split at h
    · cases h
    · rename_i pa hpa
      cases h
      simp only [List.mem_append] at ha
      rcases ha with ((ha | ha) | ha) | ha
      · exact check_data_quality_severityOk thr inp.quality a ha
      · exact check_statistical_drift_severityOk thr inp.driftStats a ha
      · exact check_performance_severityOk thr _ inp.rmse inp.pairs pa hpa a ha
      · split at ha
        · exact check_bias_drift_severityOk thr inp.dataCols _ inp.disparity a ha
        · simp at ha
  refine ⟨List.all_eq_true.mpr hall, List.countP_eq_zero.mpr ?_⟩
  intro a ha
  simp [severityOk_no_retraining (hall a ha)]

/-- Witness for C9: a concrete cycle producing a CRITICAL data-quality
alert; its report's alerts all carry WARNING/CRITICAL severities and no
severity contains RETRAINING. -/
theorem cycle_severities_warning_or_critical_witness :
    check_drift defaultThresholds
      (CycleInput.mk ["glucose_raw"] (QualityStats.mk 1 0 0 none true 2) [] none []
        none (fun _ => 0)) =
      some (CycleReport.mk
        [DriftAlert.mk "CRITICAL" "DATA_QUALITY" "sensor_range_violations" 2 0] false) ∧
    ([DriftAlert.mk "CRITICAL" "DATA_QUALITY" "sensor_range_violations" (2 : ℚ) 0].all
        severityOk = true ∧
      [DriftAlert.mk "CRITICAL" "DATA_QUALITY" "sensor_range_violations" (2 : ℚ) 0].countP
        (fun a => strContains a.severity "RETRAINING") = 0) := by
  have hsome : check_drift defaultThresholds
      (CycleInput.mk ["glucose_raw"] (QualityStats.mk 1 0 0 none true 2) [] none []
        none (fun _ => 0)) =
      some (CycleReport.mk
        [DriftAlert.mk "CRITICAL" "DATA_QUALITY" "sensor_range_violations" 2 0] false) := by
    decide
  exact ⟨hsome,
    cycle_severities_warning_or_critical defaultThresholds _ _ hsome⟩

/-- Counterexample to C10: a zero-row batch whose columns lack the
ground-truth target runs to completion and the cycle DOES return a
report — the missing-rate division by zero is a numpy NaN under the
module's suppressed warnings (comparing false against the threshold),
not a raise, and the performance step soft-skips. -/
theorem zero_row_cycle_returns_report :
    check_drift defaultThresholds
      (CycleInput.mk ["glucose_raw"] (QualityStats.mk 0 8 0 none true 0) [] none []
        none (fun _ => 0)) =
      some (CycleReport.mk [] false) := by
  decide

/-- C10 (amended): for a zero-row batch with the ground-truth target
column present, the clinical-grid aggregation divides each zone count
by the zero row count and raises, so the cycle returns no report; the
data-quality missing-rate division by zero, in contrast, yields NaN
(numpy semantics, warnings suppressed) rather than raising; a complete
report is therefore only guaranteed when the batch has at least one
row (a zero-row batch without the target column still returns one). -/
theorem zero_row_cycle_with_target_raises
    (thr : MonitoringThresholds) (inp : CycleInput)
    (htarget : inp.dataCols.contains "target_30min" = true)
    (hpairs : inp.pairs = []) (hrows : inp.quality.nRows = 0) :
    check_drift thr inp = none ∧ missing_rate inp.quality = none := by
  constructor
  · have hperf : check_performance thr (inp.dataCols.contains "target_30min")
        inp.rmse inp.pairs = none := by
      rw [htarget, hpairs]
      simp [check_performance, calculate_clarke_metrics]
    simp only [check_drift, hperf]
  · simp [missing_rate, hrows]

/-- Witness for C10 (amended): the concrete zero-row batch with the
target column present yields no report, and its missing rate is NaN. -/
theorem zero_row_cycle_with_target_raises_witness :
    ((["target_30min"] : List String).contains "target_30min" = true) ∧
    check_drift defaultThresholds
      (CycleInput.mk ["target_30min"] (QualityStats.mk 0 8 0 none false 0) [] none []
        none (fun _ => 0)) = none ∧
    missing_rate (QualityStats.mk 0 8 0 none false 0) = none := by
  refine ⟨rfl, ?_, ?_⟩
  · exact (zero_row_cycle_with_target_raises defaultThresholds
      (CycleInput.mk ["target_30min"] (QualityStats.mk 0 8 0 none false 0) [] none []
        none (fun _ => 0)) rfl rfl rfl).1
  · exact (zero_row_cycle_with_target_raises defaultThresholds
      (CycleInput.mk ["target_30min"] (QualityStats.mk 0 8 0 none false 0) [] none []
        none (fun _ => 0)) rfl rfl rfl).2

end DriftMonitoring
